import Mathlib

/-!
Shallow embedding of the Waze-Blitzer-Alarm script (`alarm.js`, second
revision: the one with startup config validation and the haversine
proximity filter).  JS numbers are modelled by `ℝ`, epoch-millisecond
timestamps by `ℤ` (every timestamp the script manipulates is an integer),
and the two dedup passes by `List.filter` over the normalized alert list,
exactly as in the source.
-/

namespace WazeBlitzer

/-- JS `Math.atan2 y x` on real inputs: the angle of the point `(x, y)`,
in `(-π, π]`, following the ECMAScript case analysis (quadrant
corrections for `x < 0`, the axis values for `x = 0`). -/
noncomputable def atan2 (y x : ℝ) : ℝ :=
  if 0 < x then Real.arctan (y / x)
  else if x < 0 then
    (if 0 ≤ y then Real.arctan (y / x) + Real.pi else Real.arctan (y / x) - Real.pi)
  else
    (if 0 < y then Real.pi / 2 else if y < 0 then -(Real.pi / 2) else 0)

/-- `calculateDistance(lat1, lon1, lat2, lon2)` from `alarm.js`: haversine
great-circle distance in meters, Earth radius `6371e3`.  (`Δlon` stands for
the source's `Δλ`, which is not a legal Lean identifier.) -/
noncomputable def calculateDistance (lat1 lon1 lat2 lon2 : ℝ) : ℝ :=
  let R : ℝ := 6371e3
  let φ1 := lat1 * Real.pi / 180
  let φ2 := lat2 * Real.pi / 180
  let Δφ := (lat2 - lat1) * Real.pi / 180
  let Δlon := (lon2 - lon1) * Real.pi / 180
  let a := Real.sin (Δφ / 2) * Real.sin (Δφ / 2) +
      Real.cos φ1 * Real.cos φ2 * Real.sin (Δlon / 2) * Real.sin (Δlon / 2)
  let c := 2 * atan2 (Real.sqrt a) (Real.sqrt (1 - a))
  R * c

theorem atan2_zero_one : atan2 0 1 = 0 := by
  simp [atan2, Real.arctan_zero]

theorem atan2_nonneg {y : ℝ} (x : ℝ) (hy : 0 ≤ y) : 0 ≤ atan2 y x := by
  unfold atan2
  by_cases hx : 0 < x
  · rw [if_pos hx, ← Real.arctan_zero]
    exact Real.arctan_strictMono.monotone (div_nonneg hy hx.le)
  · rw [if_neg hx]
    by_cases hx2 : x < 0
    · rw [if_pos hx2, if_pos hy]
      have h1 := Real.neg_pi_div_two_lt_arctan (y / x)
      have h2 := Real.pi_pos
      linarith
    · rw [if_neg hx2]
      by_cases hy2 : 0 < y
      · rw [if_pos hy2]
        positivity
      · rw [if_neg hy2, if_neg (not_lt.mpr hy)]

theorem dist_core_nonneg (a : ℝ) :
    0 ≤ (6371e3 : ℝ) * (2 * atan2 (Real.sqrt a) (Real.sqrt (1 - a))) := by
  have h := atan2_nonneg (Real.sqrt (1 - a)) (Real.sqrt_nonneg a)
  have h2 : (0 : ℝ) ≤ 6371e3 := by norm_num
  nlinarith

theorem calculateDistance_self (lat lon : ℝ) : calculateDistance lat lon lat lon = 0 := by
  simp [calculateDistance, atan2_zero_one]

theorem calculateDistance_comm (lat1 lon1 lat2 lon2 : ℝ) :
    calculateDistance lat1 lon1 lat2 lon2 = calculateDistance lat2 lon2 lat1 lon1 := by
  simp only [calculateDistance]
  have ha : Real.sin ((lat1 - lat2) * Real.pi / 180 / 2) *
        Real.sin ((lat1 - lat2) * Real.pi / 180 / 2) +
      Real.cos (lat2 * Real.pi / 180) * Real.cos (lat1 * Real.pi / 180) *
        Real.sin ((lon1 - lon2) * Real.pi / 180 / 2) *
        Real.sin ((lon1 - lon2) * Real.pi / 180 / 2)
      = Real.sin ((lat2 - lat1) * Real.pi / 180 / 2) *
        Real.sin ((lat2 - lat1) * Real.pi / 180 / 2) +
      Real.cos (lat1 * Real.pi / 180) * Real.cos (lat2 * Real.pi / 180) *
        Real.sin ((lon2 - lon1) * Real.pi / 180 / 2) *
        Real.sin ((lon2 - lon1) * Real.pi / 180 / 2) := by
    rw [show (lat1 - lat2) * Real.pi / 180 / 2 = -((lat2 - lat1) * Real.pi / 180 / 2) by ring,
      show (lon1 - lon2) * Real.pi / 180 / 2 = -((lon2 - lon1) * Real.pi / 180 / 2) by ring,
      Real.sin_neg, Real.sin_neg]
    ring
  rw [ha]

theorem calculateDistance_nonneg (lat1 lon1 lat2 lon2 : ℝ) :
    0 ≤ calculateDistance lat1 lon1 lat2 lon2 :=
  dist_core_nonneg _

/-- The alert record produced by the normalization `map` in `main`:
`{ id: alert.uuid, x: alert.location.x, y: alert.location.y,
   nThumbsUp: alert.nThumbsUp || 0, reportBy, street, since: alert.pubMillis }`.
`x` is longitude, `y` latitude (the source's swapped convention); `since`
is the integer epoch-millisecond `pubMillis`. -/
structure Alert where
  id : String
  x : ℝ
  y : ℝ
  nThumbsUp : ℕ
  reportBy : String
  street : String
  since : ℤ

/-- `const THREE_HOURS_MS = 3 * 60 * 60 * 1000`. -/
def THREE_HOURS_MS : ℤ := 3 * 60 * 60 * 1000

/-- `const DISTANCE_THRESHOLD = 200` (meters). -/
def DISTANCE_THRESHOLD : ℝ := 200

/-- The identity pass of the Dedup Filter:
`data.filter(alert => !oldData.some(oldAlert => oldAlert.id == alert.id))`. -/
def identityPass (data oldData : List Alert) : List Alert :=
  data.filter fun alert => ! oldData.any fun oldAlert => oldAlert.id == alert.id

section
open Classical

/-- The body of the `oldData.some(...)` callback of the proximity pass:
`timeDiff = currentTime - oldAlert.since; if (timeDiff > THREE_HOURS_MS)
return false; distance = calculateDistance(alert.y, alert.x, oldAlert.y,
oldAlert.x); if (distance <= DISTANCE_THRESHOLD) return true; return false`. -/
noncomputable def proxTooClose (currentTime : ℤ) (alert oldAlert : Alert) : Bool :=
  let timeDiff := currentTime - oldAlert.since
  if timeDiff > THREE_HOURS_MS then false
  else
    let distance := calculateDistance alert.y alert.x oldAlert.y oldAlert.x
    if distance ≤ DISTANCE_THRESHOLD then true else false

end

/-- The proximity pass of the Dedup Filter:
`newAlerts.filter(alert => !oldData.some(oldAlert => ...))`. -/
noncomputable def proximityPass (currentTime : ℤ) (newAlerts oldData : List Alert) :
    List Alert :=
  newAlerts.filter fun alert => ! oldData.any fun oldAlert =>
    proxTooClose currentTime alert oldAlert

/-- The whole Dedup Filter: the identity pass followed by the proximity
pass, both against `oldData` only. -/
noncomputable def dedup (data oldData : List Alert) (currentTime : ℤ) : List Alert :=
  proximityPass currentTime (identityPass data oldData) oldData

theorem proxTooClose_eq_true_iff (currentTime : ℤ) (alert oldAlert : Alert) :
    proxTooClose currentTime alert oldAlert = true ↔
      currentTime - oldAlert.since ≤ THREE_HOURS_MS ∧
        calculateDistance alert.y alert.x oldAlert.y oldAlert.x ≤ DISTANCE_THRESHOLD := by
  unfold proxTooClose
  by_cases ht : currentTime - oldAlert.since > THREE_HOURS_MS
  · rw [if_pos ht]
    simp only [Bool.false_eq_true, false_iff, not_and]
    intro h1 h2
    exact absurd ht (not_lt.mpr h1)
  · rw [if_neg ht]
    by_cases hd : calculateDistance alert.y alert.x oldAlert.y oldAlert.x ≤ DISTANCE_THRESHOLD
    · rw [if_pos hd]
      simp only [true_iff]
      exact ⟨not_lt.mp ht, hd⟩
    · rw [if_neg hd]
      simp only [Bool.false_eq_true, false_iff, not_and]
      intro h1
      exact hd

theorem mem_identityPass_iff (data oldData : List Alert) (alert : Alert) :
    alert ∈ identityPass data oldData ↔
      alert ∈ data ∧ ∀ o ∈ oldData, o.id ≠ alert.id := by
  simp [identityPass, List.mem_filter, List.any_eq_true]

theorem mem_proximityPass_iff (currentTime : ℤ) (l oldData : List Alert) (alert : Alert) :
    alert ∈ proximityPass currentTime l oldData ↔
      alert ∈ l ∧ ∀ o ∈ oldData,
        ¬ (currentTime - o.since ≤ THREE_HOURS_MS ∧
            calculateDistance alert.y alert.x o.y o.x ≤ DISTANCE_THRESHOLD) := by
  simp [proximityPass, List.mem_filter, List.any_eq_true, proxTooClose_eq_true_iff]

/-- Concrete alert used by the witnesses: a fresh report. -/
def wAlert : Alert := ⟨"uuid-new", 12.05, 49.0, 3, "reporter", "Main St", 20000000⟩

/-- Concrete alert used by the witnesses: a prior report more than three
hours old at witness time 20000000 ms. -/
def wStale : Alert := ⟨"uuid-old", 12.05, 49.0, 0, "other", "Main St", 0⟩

/-- C1: an alert that survived the identity pass is suppressed by the
proximity pass iff some prior alert is both at most three hours old
(relative to the current processing time) and at most 200 m away;
consequently it always survives when every prior alert is farther than
200 m, and always survives when every prior alert is older than 3 h. -/
theorem proximity_suppression_iff (data oldData : List Alert) (currentTime : ℤ)
    (alert : Alert) (hid : alert ∈ identityPass data oldData) :
    (alert ∉ dedup data oldData currentTime ↔
      ∃ o ∈ oldData, currentTime - o.since ≤ THREE_HOURS_MS ∧
        calculateDistance alert.y alert.x o.y o.x ≤ DISTANCE_THRESHOLD) ∧
    ((∀ o ∈ oldData, DISTANCE_THRESHOLD < calculateDistance alert.y alert.x o.y o.x) →
      alert ∈ dedup data oldData currentTime) ∧
    ((∀ o ∈ oldData, THREE_HOURS_MS < currentTime - o.since) →
      alert ∈ dedup data oldData currentTime) := by
  have key : alert ∈ dedup data oldData currentTime ↔
      ∀ o ∈ oldData, ¬ (currentTime - o.since ≤ THREE_HOURS_MS ∧
          calculateDistance alert.y alert.x o.y o.x ≤ DISTANCE_THRESHOLD) := by
    rw [dedup, mem_proximityPass_iff]
    exact and_iff_right hid
  refine ⟨?_, ?_, ?_⟩
  · rw [key]
    push_neg
    constructor
    · rintro ⟨o, ho, h1, h2⟩
      exact ⟨o, ho, h1, h2⟩
    · rintro ⟨o, ho, h1, h2⟩
      exact ⟨o, ho, h1, h2⟩
  · intro h
    rw [key]
    rintro o ho ⟨h1, h2⟩
    exact absurd h2 (not_le.mpr (h o ho))
  · intro h
    rw [key]
    rintro o ho ⟨h1, h2⟩
    exact absurd h1 (not_le.mpr (h o ho))

/-- Witness for C1 at a concrete input: the new alert survives the identity
pass against a stale prior alert, and the characterization holds there. -/
theorem proximity_suppression_iff_witness :
    (wAlert ∈ identityPass [wAlert] [wStale]) ∧
    ((wAlert ∉ dedup [wAlert] [wStale] 20000000 ↔
      ∃ o ∈ [wStale], 20000000 - o.since ≤ THREE_HOURS_MS ∧
        calculateDistance wAlert.y wAlert.x o.y o.x ≤ DISTANCE_THRESHOLD) ∧
    ((∀ o ∈ [wStale], DISTANCE_THRESHOLD < calculateDistance wAlert.y wAlert.x o.y o.x) →
      wAlert ∈ dedup [wAlert] [wStale] 20000000) ∧
    ((∀ o ∈ [wStale], THREE_HOURS_MS < 20000000 - o.since) →
      wAlert ∈ dedup [wAlert] [wStale] 20000000)) := by
  have hid : wAlert ∈ identityPass [wAlert] [wStale] := by
    rw [mem_identityPass_iff]
    refine ⟨by simp, ?_⟩
    intro o ho
    rw [List.mem_singleton] at ho
    subst ho
    simp [wAlert, wStale]
  exact ⟨hid, proximity_suppression_iff [wAlert] [wStale] 20000000 wAlert hid⟩

/-- C2: the Dedup Filter's output never contains an alert whose id equals
the id of some alert in the prior batch. -/
theorem dedup_excludes_prior_ids (data oldData : List Alert) (currentTime : ℤ)
    (alert : Alert) (h : alert ∈ dedup data oldData currentTime) :
    ∀ oldAlert ∈ oldData, oldAlert.id ≠ alert.id := by
  have h1 : alert ∈ identityPass data oldData :=
    ((mem_proximityPass_iff currentTime (identityPass data oldData) oldData alert).mp h).1
  exact ((mem_identityPass_iff data oldData alert).mp h1).2

/-- Witness for C2 at a concrete input: the fresh alert does survive dedup
against the stale prior alert, and its id differs from every prior id. -/
theorem dedup_excludes_prior_ids_witness :
    (wAlert ∈ dedup [wAlert] [wStale] 20000000) ∧
    (∀ oldAlert ∈ [wStale], oldAlert.id ≠ wAlert.id) := by
  have h : wAlert ∈ dedup [wAlert] [wStale] 20000000 := by
    rw [dedup, mem_proximityPass_iff]
    constructor
    · rw [mem_identityPass_iff]
      refine ⟨by simp, ?_⟩
      intro o ho
      rw [List.mem_singleton] at ho
      subst ho
      simp [wAlert, wStale]
    · intro o ho
      rw [List.mem_singleton] at ho
      subst ho
      rintro ⟨h1, -⟩
      norm_num [wStale, THREE_HOURS_MS] at h1
  exact ⟨h, dedup_excludes_prior_ids [wAlert] [wStale] 20000000 wAlert h⟩

/-- C5: with an empty prior batch both passes keep everything:
`dedup(new, []) == new`. -/
theorem dedup_empty_prior (data : List Alert) (currentTime : ℤ) :
    dedup data [] currentTime = data := by
  simp [dedup, identityPass, proximityPass]

/-- C6: the Dedup Filter's output is a subsequence of the input batch:
surviving alerts are unchanged and keep their relative order. -/
theorem dedup_sublist (data oldData : List Alert) (currentTime : ℤ) :
    List.Sublist (dedup data oldData currentTime) data := by
  unfold dedup proximityPass identityPass
  exact (List.filter_sublist _).trans (List.filter_sublist _)

/-- Both filter predicates of the Dedup Filter combined: an element of
`data` ends up in `newAlerts` exactly when it passes the identity check and
the proximity check, each against `oldData` only. -/
noncomputable def survivesDedup (oldData : List Alert) (currentTime : ℤ) (alert : Alert) :
    Bool :=
  (! oldData.any fun oldAlert => oldAlert.id == alert.id) &&
  (! oldData.any fun oldAlert => proxTooClose currentTime alert oldAlert)

theorem dedup_eq_filter_survives (data oldData : List Alert) (currentTime : ℤ) :
    dedup data oldData currentTime = data.filter (survivesDedup oldData currentTime) := by
  unfold dedup proximityPass identityPass survivesDedup
  rw [List.filter_filter]
  congr 1
  funext a
  rw [Bool.and_comm]

/-- The value of a persisted `since` field.  `millis t` is the number
`pubMillis = t`; `localeString t` stands for the string
`new Date(t).toLocaleString("de-DE", { timeZone: "Europe/Berlin" })` that the
`console.table` map writes into the shared alert object.  In JS the two are a
number and a string, so they are never the same JSON value. -/
inductive SinceValue where
  | millis (t : ℤ)
  | localeString (t : ℤ)
  deriving DecidableEq

/-- One record of `data/data.json` as the script writes it with
`JSON.stringify(data)`. -/
structure StoredAlert where
  id : String
  x : ℝ
  y : ℝ
  nThumbsUp : ℕ
  reportBy : String
  street : String
  since : SinceValue
  image : Option String

/-- Modelled from the spec: the record the spec expects to be persisted for a
normalized alert — the alert verbatim, `since` equal to the epoch-millisecond
`pubMillis`, no transient `image` field. -/
def storedOf (a : Alert) : StoredAlert :=
  ⟨a.id, a.x, a.y, a.nThumbsUp, a.reportBy, a.street, .millis a.since, none⟩

/-- The list `JSON.stringify(data)` serializes at the end of a cycle with new
alerts.  `newAlerts` is `data.filter(...)…filter(...)`, so its elements are the
very objects of `data`; by the time of the write the image loop has set
`alert.image` on each of them (the file is deleted, the property is not) and
the `console.table` map has overwritten `alert.since` with its de-DE locale
rendering.  Hence every element of `data` passing both filter predicates is
serialized mutated, the rest verbatim. -/
noncomputable def writtenState (data oldData : List Alert) (currentTime : ℤ) :
    List StoredAlert :=
  data.map fun alert =>
    if survivesDedup oldData currentTime alert then
      { id := alert.id, x := alert.x, y := alert.y, nThumbsUp := alert.nThumbsUp,
        reportBy := alert.reportBy, street := alert.street,
        since := .localeString alert.since,
        image := some ("./img/" ++ alert.id ++ ".png") }
    else storedOf alert

/-- What one poll cycle does after normalization: which alerts get posted to
the webhook, and the state file's contents afterwards. -/
structure CycleOutcome where
  notified : List Alert
  fileAfter : List StoredAlert

/-- The tail of `main` after the two dedup filters: on
`newAlerts.length == 0` it logs and returns — no notification, no state
write; otherwise it notifies every element of `newAlerts` in order and then
overwrites `data/data.json` (see `writtenState`). -/
noncomputable def runCycleTail (data oldData : List Alert) (currentTime : ℤ)
    (fileBefore : List StoredAlert) : CycleOutcome :=
  let newAlerts := dedup data oldData currentTime
  if newAlerts.length = 0 then ⟨[], fileBefore⟩
  else ⟨newAlerts, writtenState data oldData currentTime⟩

theorem runCycleTail_eq_ite (data oldData : List Alert) (currentTime : ℤ)
    (fileBefore : List StoredAlert) :
    runCycleTail data oldData currentTime fileBefore =
      if (dedup data oldData currentTime).length = 0 then ⟨[], fileBefore⟩
      else ⟨dedup data oldData currentTime, writtenState data oldData currentTime⟩ := rfl

/-- Prior-cycle alert for the C3 counterexample. -/
def aPrev : Alert := ⟨"u1", 12.05, 49.0, 0, "r", "s", 3⟩

/-- State-file record for `aPrev` before the C3 counterexample cycle. -/
def sPrev : StoredAlert := storedOf aPrev

/-- Current-cycle alert for the C3 counterexample: same id as `aPrev`,
fresher `pubMillis` and vote count. -/
def aCur : Alert := ⟨"u1", 12.05, 49.0, 5, "r", "s", 5⟩

/-- C3 counterexample: a cycle whose Dedup Filter returns zero new alerts
returns early WITHOUT writing the state file, so after the cycle the file
still holds the previous batch, not the current one. -/
theorem state_not_written_on_empty_cex :
    (runCycleTail [aCur] [aPrev] 7 [sPrev]).fileAfter ≠ [storedOf aCur] ∧
    (runCycleTail [aCur] [aPrev] 7 [sPrev]).fileAfter = [sPrev] := by
  have h1 : identityPass [aCur] [aPrev] = [] := by
    simp [identityPass, aCur, aPrev]
  have hded : dedup [aCur] [aPrev] 7 = [] := by
    simp [dedup, h1, proximityPass]
  have hrun : runCycleTail [aCur] [aPrev] 7 [sPrev] = ⟨[], [sPrev]⟩ := by
    rw [runCycleTail_eq_ite, hded]
    rfl
  constructor
  · rw [hrun]
    simp [sPrev, storedOf, aPrev, aCur]
  · rw [hrun]

/-- C3 (amended): the state file is overwritten with the serialized current
batch exactly on cycles where the Dedup Filter returns at least one alert —
one record per normalized alert, in order, ids preserved (notified alerts
with `since` replaced by its locale rendering, see C4); on a cycle with zero
new alerts `main` returns early and the file keeps its previous contents. -/
theorem state_write_amended (data oldData : List Alert) (currentTime : ℤ)
    (fileBefore : List StoredAlert) :
    ((dedup data oldData currentTime).length = 0 →
      (runCycleTail data oldData currentTime fileBefore).fileAfter = fileBefore) ∧
    ((dedup data oldData currentTime).length ≠ 0 →
      (runCycleTail data oldData currentTime fileBefore).fileAfter =
        writtenState data oldData currentTime ∧
      (runCycleTail data oldData currentTime fileBefore).fileAfter.map StoredAlert.id =
        data.map Alert.id) := by
  constructor
  · intro h
    rw [runCycleTail_eq_ite, if_pos h]
  · intro h
    have hrun : runCycleTail data oldData currentTime fileBefore =
        ⟨dedup data oldData currentTime, writtenState data oldData currentTime⟩ := by
      rw [runCycleTail_eq_ite, if_neg h]
    refine ⟨by rw [hrun], ?_⟩
    rw [hrun]
    simp only [writtenState, List.map_map]
    apply List.map_congr_left
    intro a _
    by_cases hs : survivesDedup oldData currentTime a = true
    · simp [hs]
    · simp [hs, storedOf]

/-- Witness for C3 (amended): a zero-new-alert cycle keeps the old file, a
one-new-alert cycle writes the current batch with the id preserved. -/
theorem state_write_amended_witness :
    ((runCycleTail [aCur] [aPrev] 7 [sPrev]).fileAfter = [sPrev]) ∧
    ((runCycleTail [wAlert] [wStale] 20000000 []).fileAfter =
        writtenState [wAlert] [wStale] 20000000 ∧
      (runCycleTail [wAlert] [wStale] 20000000 []).fileAfter.map StoredAlert.id =
        [wAlert].map Alert.id) := by
  have h1 : identityPass [aCur] [aPrev] = [] := by
    simp [identityPass, aCur, aPrev]
  have hded : dedup [aCur] [aPrev] 7 = [] := by
    simp [dedup, h1, proximityPass]
  have hmem : wAlert ∈ dedup [wAlert] [wStale] 20000000 := by
    rw [dedup, mem_proximityPass_iff]
    constructor
    · rw [mem_identityPass_iff]
      refine ⟨by simp, ?_⟩
      intro o ho
      rw [List.mem_singleton] at ho
      subst ho
      simp [wAlert, wStale]
    · intro o ho
      rw [List.mem_singleton] at ho
      subst ho
      rintro ⟨hh, -⟩
      norm_num [wStale, THREE_HOURS_MS] at hh
  have hne : (dedup [wAlert] [wStale] 20000000).length ≠ 0 := by
    intro h0
    rw [List.length_eq_zero] at h0
    rw [h0] at hmem
    exact absurd hmem (List.not_mem_nil wAlert)
  exact ⟨(state_write_amended [aCur] [aPrev] 7 [sPrev]).1 (by rw [hded]; rfl),
    (state_write_amended [wAlert] [wStale] 20000000 []).2 hne⟩

/-- The single genuinely new alert of the C4 failing cycle. -/
def aC4 : Alert := ⟨"u9", 12.05, 49.0, 0, "r", "s", 1000⟩

/-- C4: the claim is right and the code is wrong.  At the failing input — one
new alert (pubMillis 1000), empty prior state — the persisted `since` is the
de-DE locale string the `console.table` map wrote into the shared alert
object, not the epoch-millisecond 1000 the alert was normalized with. -/
theorem since_mutated_before_write :
    (runCycleTail [aC4] [] 0 []).fileAfter =
      [{ id := "u9", x := 12.05, y := 49.0, nThumbsUp := 0, reportBy := "r",
         street := "s", since := SinceValue.localeString 1000,
         image := some ("./img/" ++ "u9" ++ ".png") }] ∧
    ∀ s ∈ (runCycleTail [aC4] [] 0 []).fileAfter, s.since ≠ SinceValue.millis 1000 := by
  have hded : dedup [aC4] [] 0 = [aC4] := by
    simp [dedup, identityPass, proximityPass]
  have hfile : (runCycleTail [aC4] [] 0 []).fileAfter =
      [{ id := "u9", x := 12.05, y := 49.0, nThumbsUp := 0, reportBy := "r",
         street := "s", since := SinceValue.localeString 1000,
         image := some ("./img/" ++ "u9" ++ ".png") }] := by
    rw [runCycleTail_eq_ite, hded, if_neg (by simp)]
    simp [writtenState, survivesDedup, aC4]
  refine ⟨hfile, ?_⟩
  intro s hs
  rw [hfile, List.mem_singleton] at hs
  subst hs
  simp

/-- C10: deduplication is only ever performed against the prior batch — two
distinct same-position same-timestamp alerts of the current batch whose ids
are absent from the prior batch and which no prior alert proximity-matches
both survive the Dedup Filter and both are notified. -/
theorem no_intra_batch_dedup (data oldData : List Alert) (currentTime : ℤ)
    (fileBefore : List StoredAlert) (a b : Alert)
    (ha : a ∈ data) (hb : b ∈ data) (hab : a ≠ b)
    (hpos : a.x = b.x ∧ a.y = b.y ∧ a.since = b.since)
    (hidA : ∀ o ∈ oldData, o.id ≠ a.id) (hidB : ∀ o ∈ oldData, o.id ≠ b.id)
    (hpA : ∀ o ∈ oldData, ¬ (currentTime - o.since ≤ THREE_HOURS_MS ∧
        calculateDistance a.y a.x o.y o.x ≤ DISTANCE_THRESHOLD))
    (hpB : ∀ o ∈ oldData, ¬ (currentTime - o.since ≤ THREE_HOURS_MS ∧
        calculateDistance b.y b.x o.y o.x ≤ DISTANCE_THRESHOLD)) :
    a ∈ dedup data oldData currentTime ∧ b ∈ dedup data oldData currentTime ∧
    a ∈ (runCycleTail data oldData currentTime fileBefore).notified ∧
    b ∈ (runCycleTail data oldData currentTime fileBefore).notified := by
  have hA : a ∈ dedup data oldData currentTime := by
    rw [dedup, mem_proximityPass_iff]
    exact ⟨(mem_identityPass_iff data oldData a).mpr ⟨ha, hidA⟩, hpA⟩
  have hB : b ∈ dedup data oldData currentTime := by
    rw [dedup, mem_proximityPass_iff]
    exact ⟨(mem_identityPass_iff data oldData b).mpr ⟨hb, hidB⟩, hpB⟩
  have hne : ¬ (dedup data oldData currentTime).length = 0 := by
    intro h0
    rw [List.length_eq_zero] at h0
    rw [h0] at hA
    exact absurd hA (List.not_mem_nil a)
  refine ⟨hA, hB, ?_, ?_⟩
  · rw [runCycleTail_eq_ite, if_neg hne]
    exact hA
  · rw [runCycleTail_eq_ite, if_neg hne]
    exact hB

/-- Twin alert A for the C10 witness. -/
def wTwinA : Alert := ⟨"ua", 12.05, 49.0, 0, "r1", "s", 5⟩

/-- Twin alert B for the C10 witness: same position and timestamp as
`wTwinA`, different id. -/
def wTwinB : Alert := ⟨"ub", 12.05, 49.0, 1, "r2", "s", 5⟩

/-- Witness for C10: both identical-position twins survive a dedup against a
stale prior alert and both are notified. -/
theorem no_intra_batch_dedup_witness :
    (wTwinA ∈ [wTwinA, wTwinB] ∧ wTwinB ∈ [wTwinA, wTwinB] ∧ wTwinA ≠ wTwinB ∧
      wTwinA.x = wTwinB.x ∧ wTwinA.y = wTwinB.y ∧ wTwinA.since = wTwinB.since) ∧
    (wTwinA ∈ dedup [wTwinA, wTwinB] [wStale] 20000000 ∧
     wTwinB ∈ dedup [wTwinA, wTwinB] [wStale] 20000000 ∧
     wTwinA ∈ (runCycleTail [wTwinA, wTwinB] [wStale] 20000000 []).notified ∧
     wTwinB ∈ (runCycleTail [wTwinA, wTwinB] [wStale] 20000000 []).notified) := by
  have hab : wTwinA ≠ wTwinB := by
    intro h
    have : wTwinA.id = wTwinB.id := by rw [h]
    simp [wTwinA, wTwinB] at this
  have hstale : ∀ o ∈ [wStale], ¬ ((20000000 : ℤ) - o.since ≤ THREE_HOURS_MS ∧
      calculateDistance (49.0 : ℝ) 12.05 o.y o.x ≤ DISTANCE_THRESHOLD) := by
    intro o ho
    rw [List.mem_singleton] at ho
    subst ho
    rintro ⟨hh, -⟩
    norm_num [wStale, THREE_HOURS_MS] at hh
  refine ⟨⟨by simp, by simp, hab, by simp [wTwinA, wTwinB], by simp [wTwinA, wTwinB],
      by simp [wTwinA, wTwinB]⟩, ?_⟩
  exact no_intra_batch_dedup [wTwinA, wTwinB] [wStale] 20000000 [] wTwinA wTwinB
    (by simp) (by simp) hab
    ⟨by simp [wTwinA, wTwinB], by simp [wTwinA, wTwinB], by simp [wTwinA, wTwinB]⟩
    (by intro o ho; rw [List.mem_singleton] at ho; subst ho; simp [wStale, wTwinA])
    (by intro o ho; rw [List.mem_singleton] at ho; subst ho; simp [wStale, wTwinB])
    (by intro o ho; exact hstale o ho)
    (by intro o ho; exact hstale o ho)

/-- The bounding-box object parsed from the `BOUNDS` environment variable. -/
structure Bounds where
  top : ℝ
  bottom : ℝ
  left : ℝ
  right : ℝ

/-- The three configuration values read at module top:
`BOUNDS = JSON.parse(process.env.BOUNDS || "null")` (`none` models the falsy
parse result `null`, i.e. the variable unset or empty; a parsed bounding-box
object is always truthy), and the raw `MAPBOX_TOKEN` / `WEBHOOK_URL`
environment strings (`none` = unset; a set empty string is falsy in JS and
is treated as missing by the `!` checks). -/
structure Config where
  bounds : Option Bounds
  mapboxToken : Option String
  webhookUrl : Option String

/-- JS truthiness of an optional environment string: falsy iff unset or
empty. -/
def strTruthy : Option String → Bool
  | none => false
  | some s => ! (s == "")

/-- The three startup checks, in source order:
`if (!BOUNDS) throw new Error("BOUNDS not set")`,
`if (!MAPBOX_TOKEN) throw new Error("MAPBOX_TOKEN not set")`,
`if (!WEBHOOK_URL) throw new Error("WEBHOOK_URL not set")`. -/
def validateConfig (c : Config) : Except String Unit :=
  if c.bounds.isNone then .error "BOUNDS not set"
  else if ! strTruthy c.mapboxToken then .error "MAPBOX_TOKEN not set"
  else if ! strTruthy c.webhookUrl then .error "WEBHOOK_URL not set"
  else .ok ()

/-- Module evaluation: the config checks run at import time, before the
`while (true)` poll loop at the bottom of the file.  A throw aborts the
module, so the loop — and with it every fetch, notification and state
write, all of which happen inside `main` — never runs: the observable
trace is empty.  `loopTrace` is whatever trace the poll loop would
produce. -/
def moduleRun {α : Type} (c : Config) (loopTrace : List α) : List α :=
  match validateConfig c with
  | .error _ => []
  | .ok _ => loopTrace

/-- C8: a missing bounding box, map token or webhook URL makes startup throw
before the poll loop — the process performs no fetch, notification or state
write; with all three present (set and non-empty), validation passes. -/
theorem config_fail_fast {α : Type} (c : Config) (loopTrace : List α) :
    ((c.bounds = none ∨ c.mapboxToken = none ∨ c.webhookUrl = none) →
      (∃ e, validateConfig c = .error e) ∧ moduleRun c loopTrace = []) ∧
    (∀ b tok url, c.bounds = some b → c.mapboxToken = some tok → tok ≠ "" →
      c.webhookUrl = some url → url ≠ "" → validateConfig c = .ok ()) := by
  constructor
  · intro h
    have herr : ∃ e, validateConfig c = .error e := by
      rcases h with h | h | h
      · exact ⟨"BOUNDS not set", by simp [validateConfig, h]⟩
      · rcases hb : c.bounds with - | b
        · exact ⟨"BOUNDS not set", by simp [validateConfig, hb]⟩
        · exact ⟨"MAPBOX_TOKEN not set", by simp [validateConfig, hb, strTruthy, h]⟩
      · rcases hb : c.bounds with - | b
        · exact ⟨"BOUNDS not set", by simp [validateConfig, hb]⟩
        · rcases ht : strTruthy c.mapboxToken with - | -
          · exact ⟨"MAPBOX_TOKEN not set", by simp [validateConfig, hb, ht]⟩
          · exact ⟨"WEBHOOK_URL not set", by
              have hw : strTruthy c.webhookUrl = false := by rw [h]; rfl
              simp [validateConfig, hb, ht, hw]⟩
    refine ⟨herr, ?_⟩
    rcases herr with ⟨e, he⟩
    simp [moduleRun, he]
  · intro b tok url hb htok htokne hurl hurlne
    simp [validateConfig, hb, htok, hurl, strTruthy, htokne, hurlne]

/-- Witness for C8: a config lacking the token throws and produces an empty
trace; a fully set config validates. -/
theorem config_fail_fast_witness :
    (((⟨some ⟨49, 48, 12, 13⟩, none, some "https://hook"⟩ : Config).bounds = none ∨
      (⟨some ⟨49, 48, 12, 13⟩, none, some "https://hook"⟩ : Config).mapboxToken = none ∨
      (⟨some ⟨49, 48, 12, 13⟩, none, some "https://hook"⟩ : Config).webhookUrl = none) ∧
     ((∃ e, validateConfig ⟨some ⟨49, 48, 12, 13⟩, none, some "https://hook"⟩ = .error e) ∧
      moduleRun ⟨some ⟨49, 48, 12, 13⟩, none, some "https://hook"⟩ [0] = [])) ∧
    validateConfig ⟨some ⟨49, 48, 12, 13⟩, some "pk.token", some "https://hook"⟩ = .ok () := by
  refine ⟨⟨Or.inr (Or.inl rfl), ?_⟩, ?_⟩
  · exact (config_fail_fast ⟨some ⟨49, 48, 12, 13⟩, none, some "https://hook"⟩ [0]).1
      (Or.inr (Or.inl rfl))
  · exact (config_fail_fast ⟨some ⟨49, 48, 12, 13⟩, some "pk.token", some "https://hook"⟩
      ([] : List ℕ)).2 ⟨49, 48, 12, 13⟩ "pk.token" "https://hook" rfl rfl (by simp) rfl
      (by simp)

/-- The poll loop `while (true) { main(); await new Promise(r =>
setTimeout(r, 60000)); }`: `main()` is invoked WITHOUT `await`, so the loop
proceeds to the 60 s timer as soon as `main` hits its first await; cycle `k`
therefore starts `k * 60000` ms after loop entry, independent of how long any
cycle's asynchronous work takes. -/
def cycleStart (k : ℕ) : ℕ := k * 60000

/-- When cycle `k`'s asynchronous work finishes, given the duration of each
cycle's work. -/
def cycleEnd (duration : ℕ → ℕ) (k : ℕ) : ℕ := cycleStart k + duration k

/-- Cycle `k + 1` begins while cycle `k`'s asynchronous work is still
outstanding. -/
def cyclesOverlap (duration : ℕ → ℕ) (k : ℕ) : Prop :=
  cycleStart (k + 1) < cycleEnd duration k

/-- C9 counterexample: the loop does NOT wait for a cycle to finish — an
execution whose first cycle's asynchronous work takes 120 s starts cycle 1
(at 60 s) while cycle 0 is still outstanding. -/
theorem poll_loop_overlap_cex : cyclesOverlap (fun _ => 120000) 0 := by
  norm_num [cyclesOverlap, cycleStart, cycleEnd]

/-- C9 (amended): the loop starts each cycle a fixed 60 s after the previous
start, regardless of the previous cycle's asynchronous work; consecutive
cycles overlap exactly when that work takes longer than 60 s. -/
theorem poll_loop_fixed_rate (duration : ℕ → ℕ) (k : ℕ) :
    cycleStart (k + 1) = cycleStart k + 60000 ∧
    (cyclesOverlap duration k ↔ 60000 < duration k) := by
  constructor
  · simp [cycleStart]
    ring
  · unfold cyclesOverlap cycleEnd cycleStart
    constructor
    · intro h
      omega
    · intro h
      omega

/-- C7: the Distance Calculator vanishes on equal points, is symmetric in its
two points, and always returns a non-negative real (haversine, R = 6371000 m). -/
theorem distance_calculator_props :
    (∀ lat lon : ℝ, calculateDistance lat lon lat lon = 0) ∧
    (∀ lat1 lon1 lat2 lon2 : ℝ,
      calculateDistance lat1 lon1 lat2 lon2 = calculateDistance lat2 lon2 lat1 lon1) ∧
    (∀ lat1 lon1 lat2 lon2 : ℝ, 0 ≤ calculateDistance lat1 lon1 lat2 lon2) :=
  ⟨calculateDistance_self, calculateDistance_comm, calculateDistance_nonneg⟩

end WazeBlitzer
